import Mathlib

/-!
Shallow embedding of the Multi-Agent-for-Research-Analysis repository.

Sources embedded:
- src/Research_and_Analyst/exceptions/custom_exception.py
  (class ResearchAnalystException)
- src/Research_and_Analyst/utils/model_loader.py
  (class ApiKeyManager, class ModelLoader: load_embeddings, load_llm)

Modelling conventions:
- A Python traceback handle is a list of frame entries; the empty list models a
  null handle (the tb_next walk then yields nothing).
- traceback.format_exception is an external library routine; it is passed in as
  an explicit function parameter fmt so that theorems quantify over it.
- custom_exception.py does not parse: the bare triple-quoted string at lines
  21-29 stands at the same indentation between the suite of the if at line 18
  and the elif at line 30. In the Python grammar an interposed statement
  terminates the if statement, so the elif at line 30 is orphaned and the
  module raises SyntaxError at import. The statement layout of that region
  and the clause-attachment rule are embedded below (SrcStmt,
  firstOrphanClause, detailsElseSuite, customExceptionModuleImport), so the parse
  failure is itself a checked fact. Because the module never imports, the
  constructor described by the spec is not part of any loadable program: the
  ResearchAnalystException definitions below are therefore modelled from the
  spec (resolution policy, deepest-frame walk, message normalisation,
  sentinels, rendering contract, the repr attribute mismatch), with the
  literal strings, attribute names and line references taken from the source
  text. Theorems about them state what the spec intends, next to the
  checked parse failure.
- In model_loader.py the except handlers interpolate the local variable
  model_name into an f-string. When the handled exception was raised before
  model_name was assigned, that interpolation raises UnboundLocalError, which
  escapes the method. The embedding threads the binding state of model_name
  out of the try body to reproduce this exactly.
- Raising an exception is modelled with Except; the wrapped constructor of
  LoadErr records the message of the re-raised ResearchAnalystException
  together with the caught cause. The cause models what
  ResearchAnalystException(msg, sys) captures from sys.exc_info() inside the
  handler, i.e. what ends up in the traceback text of the wrapped error.
-/

namespace ResearchAnalyst

/-- One node of a Python traceback chain: it carries
tb_frame.f_code.co_filename and tb_lineno. -/
structure TBEntry where
  filename : String
  lineno : Int
deriving DecidableEq

/-- A traceback handle: the chain of nodes reached by following tb_next.
The empty list models a null handle. -/
abbrev Traceback := List TBEntry

/-- A Python exception object, as far as custom_exception.py inspects it:
its str() rendering and its captured traceback chain. -/
structure PyException where
  str : String
  tb : Traceback
deriving DecidableEq

/-- The triple returned by an exc_info() call: whether the type slot is
non-null, the value slot, and the traceback slot ([] for null). The
exhausted state (None, None, None) is modelled by hasType = false,
value = none, tb = []. -/
structure ExcInfo where
  hasType : Bool
  value : Option PyException
  tb : Traceback
deriving DecidableEq

/-- The error_message argument of ResearchAnalystException.__init__: either an
exception object (normalised through str) or an already renderable value. -/
inductive Msg where
  | ofExc (e : PyException)
  | ofStr (s : String)
deriving DecidableEq

/-- Modelled from the spec: message normalisation (stringify an error object,
use any other value as-is); the source text is custom_exception.py lines
8-11, which never loads. -/
def normMsg : Msg → String
  | .ofExc e => e.str
  | .ofStr s => s

/-- The error_details argument of ResearchAnalystException.__init__, as the
four shapes the dispatch at lines 15-33 distinguishes: None, an object with an
exc_info accessor (for example the sys module), an Exception instance (with no
exc_info attribute), and anything else. -/
inductive ErrorDetails where
  | noneD
  | excInfoObj (info : ExcInfo)
  | excObj (e : PyException)
  | otherObj
deriving DecidableEq

/-- Modelled from the spec: the input resolution policy for
(exc_type, exc_value, exc_tb), the four priority-ordered cases of spec
section 4.1 — no details source uses the ambient sys.exc_info(); a details
object exposing an exc_info accessor is called; a caught error object
yields (type(e), e, e.__traceback__); anything else falls back to the
ambient state. The source text is the details-resolution chain at
custom_exception.py lines 14-33, the very region whose interposed string
statement makes the module unparseable (see customExceptionModuleImport). -/
def resolveExcInfo (ambient : ExcInfo) : ErrorDetails → ExcInfo
  | .noneD => ambient
  | .excInfoObj info => info
  | .excObj e => ⟨true, some e, e.tb⟩
  | .otherObj => ambient

/-- Modelled from the spec: the deepest-frame walk — starting from the
resolved traceback handle, follow the next-frame link until it is absent;
none when the handle was null. The source text is the while loop of
custom_exception.py lines 36-38. -/
def lastTB : Traceback → Option TBEntry
  | [] => none
  | [t] => some t
  | _ :: t :: ts => lastTB (t :: ts)

/-- The record of attributes that ResearchAnalystException.__init__ stores on
the instance (lines 40-48). -/
structure RAException where
  file_name : String
  lineno : Int
  error_message : String
  traceback_str : String
deriving DecidableEq

/-- Modelled from the spec: the ResearchAnalystException constructor that the
spec describes and that the source text of custom_exception.py lines 6-50
intends but does not provide (the module fails to parse, see
customExceptionModuleImport). fmt models traceback.format_exception joined into
one string; ambient models the result of sys.exc_info() at the construction
site; the sentinel spellings are those of the source text. -/
def mkRAException (fmt : ExcInfo → String) (ambient : ExcInfo)
    (msg : Msg) (ed : ErrorDetails) : RAException :=
  let norm_msg := normMsg msg
  let info := resolveExcInfo ambient ed
  let last_tb := lastTB info.tb
  { file_name := match last_tb with
      | some t => t.filename
      | none => "<unknown file>"
    lineno := match last_tb with
      | some t => t.lineno
      | none => -1
    error_message := norm_msg
    traceback_str :=
      if info.hasType && !info.tb.isEmpty then fmt info
      else "<no traceback available>" }

/-- Modelled from the spec: the string rendering contract (base line, then a
Traceback block when the traceback text is non-empty); the source text is
ResearchAnalystException.__str__, custom_exception.py lines 54-59, where the
Python truthiness test on traceback_str is the test for a non-empty
string. -/
def RAException.toStr (e : RAException) : String :=
  let base := "Error in [" ++ e.file_name ++ "] at line [" ++ toString e.lineno
    ++ "] | Message: " ++ e.error_message
  if e.traceback_str = "" then base
  else base ++ "\nTraceback:\n" ++ e.traceback_str

/-- A Python attribute value of the instance: string or integer. -/
inductive PyVal where
  | str (s : String)
  | int (n : Int)
deriving DecidableEq

/-- Modelled from the spec: attribute lookup on a constructed instance,
restricted to the attributes the constructor stores (the source text sets
them at custom_exception.py lines 40-48); any other name raises
AttributeError, modelled by none. -/
def RAException.getattr (e : RAException) (name : String) : Option PyVal :=
  if name = "file_name" then some (.str e.file_name)
  else if name = "lineno" then some (.int e.lineno)
  else if name = "error_message" then some (.str e.error_message)
  else if name = "traceback_str" then some (.str e.traceback_str)
  else none

/-- Rendering of a value under the !r conversion of an f-string. -/
def pyReprVal : PyVal → String
  | .str s => "\x27" ++ s ++ "\x27"
  | .int n => toString n

/-- Rendering of a value under plain f-string interpolation. -/
def pyStrVal : PyVal → String
  | .str s => s
  | .int n => toString n

/-- Modelled from the spec: the repr method with the attribute mismatch the
spec flags as an open question; the source text is
ResearchAnalystException.__repr__, custom_exception.py lines 61-62, whose
f-string reads self.filename, self.lineno and self.error_message in that
order. A missing attribute raises AttributeError, modelled by Except.error
carrying the attribute name. -/
def RAException.reprImpl (e : RAException) : Except String String :=
  match e.getattr "filename", e.getattr "lineno", e.getattr "error_message" with
  | some f, some l, some m =>
      .ok ("ResearchAnalysisException(file=" ++ pyReprVal f ++ ", line="
        ++ pyStrVal l ++ ", message=" ++ pyReprVal m ++ ")")
  | none, _, _ => .error "filename"
  | _, none, _ => .error "lineno"
  | _, _, none => .error "error_message"

/-- The kinds of logical lines that matter for clause attachment in the
Python grammar: an if header, an elif header, an else header, or any other
interposed statement (here the bare string expression statement). -/
inductive StmtKind where
  | ifHead
  | elifHead
  | elseHead
  | exprStmt
deriving DecidableEq

/-- A logical source line: its line number and its statement kind. -/
structure SrcStmt where
  lineno : Nat
  kind : StmtKind
deriving DecidableEq

/-- The clause-attachment rule of the Python grammar for a statement sequence
at one indentation level: an elif or else header is accepted only when the
immediately preceding statement at that level is an if or elif header (whose
chain it continues); any other interposed statement terminates the chain.
Returns the line number of the first orphaned clause header, none when the
sequence parses. -/
def firstOrphanClause : Option StmtKind → List SrcStmt → Option Nat
  | _, [] => none
  | prev, s :: rest =>
    match s.kind with
    | .elifHead =>
        if prev = some .ifHead ∨ prev = some .elifHead then
          firstOrphanClause (some .elifHead) rest
        else some s.lineno
    | .elseHead =>
        if prev = some .ifHead ∨ prev = some .elifHead then
          firstOrphanClause (some .elseHead) rest
        else some s.lineno
    | k => firstOrphanClause (some k) rest

/-- The statement layout, at indentation 12, of the else suite of the
details-resolution conditional, custom_exception.py lines 18-33: the if
header at line 18 (suite at lines 19-20), the bare string expression
statement at lines 21-29, the elif header at line 30 (suite at line 31),
the else header at line 32 (suite at line 33). -/
def detailsElseSuite : List SrcStmt :=
  [⟨18, .ifHead⟩, ⟨21, .exprStmt⟩, ⟨30, .elifHead⟩, ⟨32, .elseHead⟩]

/-- The import outcome of Research_and_Analyst/exceptions/custom_exception.py:
Python parses the whole module body before executing any of it, so an
orphaned clause header makes the import raise SyntaxError at that line and
the class statement never executes; no ResearchAnalystException value can
exist in the process. -/
def customExceptionModuleImport : Except Nat Unit :=
  match firstOrphanClause none detailsElseSuite with
  | some n => .error n
  | none => .ok ()

/-- The embedding_model block of the YAML configuration; a missing model_name
key is modelled by none. -/
structure EmbCfg where
  model_name : Option String
deriving DecidableEq

/-- One PROVIDER_KEY block of the llm configuration mapping; each field is
read with dict.get and may be absent. -/
structure LLMEntry where
  provider : Option String
  model_name : Option String
  temperature : Option Rat
  max_tokens : Option Int
deriving DecidableEq

/-- The loaded YAML configuration, as far as model_loader.py subscripts it:
a missing top-level key (KeyError on subscript) is modelled by none. -/
structure Config where
  embedding_model : Option EmbCfg
  llm : Option (List (String × LLMEntry))
deriving DecidableEq

/-- The process environment variables model_loader.py reads. -/
structure Env where
  LLM_PROVIDER : Option String
  OPENAI_API_KEY : Option String
  GOOGLE_API_KEY : Option String
  GROQ_API_KEY : Option String
deriving DecidableEq

/-- Decidable equality of Except results, so that concrete runs of the
loaders can be evaluated inside proofs. -/
instance instDecidableEqExcept {e a : Type} [DecidableEq e] [DecidableEq a] :
    DecidableEq (Except e a)
  | .error x, .error y =>
      if h : x = y then .isTrue (by rw [h]) else .isFalse (by simp [h])
  | .error _, .ok _ => .isFalse (by simp)
  | .ok _, .error _ => .isFalse (by simp)
  | .ok x, .ok y =>
      if h : x = y then .isTrue (by rw [h]) else .isFalse (by simp [h])

/-- str.upper(), written characterwise so that it evaluates by structural
reduction (Char.toUpper upper-cases exactly the ASCII range, which agrees
with Python str.upper on the ASCII keys and provider names used here). -/
def pyUpper (s : String) : String := ⟨s.data.map Char.toUpper⟩

/-- Lookup in a Python dict modelled as an association list. -/
def dictLookup {α : Type} : List (String × α) → String → Option α
  | [], _ => none
  | (k, v) :: rest, key => if k = key then some v else dictLookup rest key

/-- The api_keys mapping built by ApiKeyManager.__init__,
model_loader.py lines 22-26. -/
def ApiKeyManager.api_keys (env : Env) : List (String × Option String) :=
  [("OPENAI_API_KEY", env.OPENAI_API_KEY),
   ("GOOGLE_API_KEY", env.GOOGLE_API_KEY),
   ("GROQ_API_KEY", env.GROQ_API_KEY)]

/-- ApiKeyManager.get, model_loader.py lines 38-49: dict.get on the
upper-cased name, defaulting to None. The stored values are themselves
optional, so the two layers are joined. -/
def ApiKeyManager.get (env : Env) (key : String) : Option String :=
  (dictLookup (ApiKeyManager.api_keys env) (pyUpper key)).join

/-- The provider key computed at model_loader.py line 122:
os.getenv with default openai, upper-cased. -/
def providerKey (env : Env) : String :=
  pyUpper (env.LLM_PROVIDER.getD "openai")

/-- The chat client returned by load_llm: exactly the constructor calls at
model_loader.py lines 136-156, with exactly the arguments passed there. -/
inductive LLM where
  | chatOpenAI (model : Option String) (temperature : Rat)
      (api_key : Option String)
  | chatGoogleGenerativeAI (model : Option String) (temperature : Rat)
      (api_key : Option String) (max_output_tokens : Int)
  | chatGroq (model : Option String) (temperature : Rat)
      (api_key : Option String)
deriving DecidableEq

/-- The embedding client returned by load_embeddings,
model_loader.py lines 91-94. -/
inductive Embeddings where
  | googleGenerativeAIEmbeddings (model : String) (api_key : Option String)
deriving DecidableEq

/-- An exception raised inside the try body of a loader method:
a KeyError from a dict subscript, the ResearchAnalystException raised at
line 126, or the ValueError raised at line 160. -/
inductive InnerErr where
  | keyError (key : String)
  | raExc (msg : String)
  | valueError (msg : String)
deriving DecidableEq

/-- What escapes a loader method: either the UnboundLocalError raised when
the except handler interpolates a local that was never assigned, or the
re-raised wrapping ResearchAnalystException, recorded with its message and
the caught cause (the cause is what sys.exc_info() yields inside the
handler, hence what lands in the traceback text of the wrapped error). -/
inductive LoadErr where
  | unboundLocalError (name : String)
  | wrapped (msg : String) (cause : InnerErr)
deriving DecidableEq

/-- Python str() of an optional string: None prints as None. -/
def pyOptStr : Option String → String
  | none => "None"
  | some s => s

/-- The try body of ModelLoader.load_llm, model_loader.py lines 120-163.
On error it also reports the binding state of the local model_name at the
raise site: none when model_name was not yet assigned (the raise happened
before line 130), some v once line 130 ran. -/
def load_llm_try (cfg : Config) (env : Env) :
    Except (InnerErr × Option (Option String)) LLM :=
  match cfg.llm with
  | none => .error (.keyError "llm", none)
  | some llm_block =>
    let provider_key := providerKey env
    match dictLookup llm_block provider_key with
    | none => .error
        (.raExc ("LLM provider " ++ provider_key ++ " not found in configuration"),
         none)
    | some llm_config =>
      let provider := llm_config.provider
      let model_name := llm_config.model_name
      let temperature := llm_config.temperature.getD 0.7
      let max_tokens := llm_config.max_tokens.getD 1000
      if provider = some "openai" then
        .ok (.chatOpenAI model_name temperature
          (ApiKeyManager.get env "OPENAI_API_KEY"))
      else if provider = some "google" then
        .ok (.chatGoogleGenerativeAI model_name temperature
          (ApiKeyManager.get env "GOOGLE_API_KEY") max_tokens)
      else if provider = some "groq" then
        .ok (.chatGroq model_name temperature
          (ApiKeyManager.get env "GROQ_API_KEY"))
      else
        .error (.valueError ("Unsupported LLM provider " ++ pyOptStr provider),
          some model_name)

/-- ModelLoader.load_llm, model_loader.py lines 107-167. The except handler
first interpolates model_name into the log f-string (line 166): if the local
is unbound this raises UnboundLocalError, which escapes; otherwise the
handler re-raises ResearchAnalystException with the message of line 167. -/
def load_llm (cfg : Config) (env : Env) : Except LoadErr LLM :=
  match load_llm_try cfg env with
  | .ok llm => .ok llm
  | .error (_, none) => .error (.unboundLocalError "model_name")
  | .error (e, some mn) =>
      .error (.wrapped ("Failed to load LLM " ++ pyOptStr mn) e)

/-- The try body of ModelLoader.load_embeddings, model_loader.py
lines 81-97: the double subscript of line 82 raises KeyError when either
key is absent (with model_name still unbound); the asyncio probing has no
effect on the returned value; the client is built from the model name and
the Google credential. -/
def load_embeddings_try (cfg : Config) (env : Env) :
    Except (InnerErr × Option String) Embeddings :=
  match cfg.embedding_model with
  | none => .error (.keyError "embedding_model", none)
  | some emb =>
    match emb.model_name with
    | none => .error (.keyError "model_name", none)
    | some model_name =>
        .ok (.googleGenerativeAIEmbeddings model_name
          (ApiKeyManager.get env "GOOGLE_API_KEY"))

/-- ModelLoader.load_embeddings, model_loader.py lines 74-101. The except
handler interpolates model_name into the log f-string (line 100): if the
local is unbound this raises UnboundLocalError, which escapes; otherwise it
re-raises ResearchAnalystException with the message of line 101. -/
def load_embeddings (cfg : Config) (env : Env) : Except LoadErr Embeddings :=
  match load_embeddings_try cfg env with
  | .ok e => .ok e
  | .error (_, none) => .error (.unboundLocalError "model_name")
  | .error (e, some mn) =>
      .error (.wrapped ("Failed to load embedding model " ++ mn) e)

/-- The configuration of the scenarios in the spec: a single OPENAI block with
provider openai, model gpt-4o-mini, temperature 0.2, and no AZURE block. -/
def openaiOnlyCfg : Config :=
  ⟨none, some [("OPENAI", ⟨some "openai", some "gpt-4o-mini", some 0.2, none⟩)]⟩

/-- An environment with LLM_PROVIDER set to azure and no credentials. -/
def azureEnv : Env := ⟨some "azure", none, none, none⟩

/-- A configuration whose embedding_model block lacks the model_name key. -/
def noEmbNameCfg : Config := ⟨some ⟨none⟩, none⟩

/-- An environment with nothing set. -/
def emptyEnv : Env := ⟨none, none, none, none⟩

/-! Theorems settling the claims. -/

/-- The while loop of lines 36-38 computes the last element of the chain. -/
theorem lastTB_eq_getLastOpt : ∀ l : Traceback, lastTB l = l.getLast?
  | [] => rfl
  | [_] => by simp [lastTB]
  | a :: b :: ts => by
      rw [show lastTB (a :: b :: ts) = lastTB (b :: ts) from rfl,
        lastTB_eq_getLastOpt (b :: ts), List.getLast?_cons_cons]

/-- On a non-null chain the walk ends at the deepest entry. -/
theorem lastTB_some (l : Traceback) (h : l ≠ []) :
    lastTB l = some (l.getLast h) := by
  rw [lastTB_eq_getLastOpt, List.getLast?_eq_getLast_of_ne_nil h]

/-- Claim C1 (code_bug): the deepest-ambient-frame capture is the intended
behavior — over the spec-modelled constructor, error_details = None with a
non-null ambient traceback stores the file name and line number of the
deepest (last) frame, reached by following the next link until absent — but
the code cannot exhibit it: custom_exception.py fails to parse (orphaned
elif, SyntaxError at line 30), so the import errors and no
ResearchAnalystException is ever constructed. -/
theorem init_none_details_deepest_ambient_frame (fmt : ExcInfo → String)
    (msg : Msg) (ambient : ExcInfo) (h : ambient.tb ≠ []) :
    customExceptionModuleImport = .error 30 ∧
    ((mkRAException fmt ambient msg .noneD).file_name
      = (ambient.tb.getLast h).filename ∧
    (mkRAException fmt ambient msg .noneD).lineno
      = (ambient.tb.getLast h).lineno) := by
  have hl := lastTB_some ambient.tb h
  exact ⟨by decide, by simp [mkRAException, resolveExcInfo, hl],
    by simp [mkRAException, resolveExcInfo, hl]⟩

/-- Claim C1 witness: a concrete two-frame ambient traceback. -/
theorem init_none_details_deepest_ambient_frame_witness :
    customExceptionModuleImport = .error 30 ∧
    ((mkRAException (fun _ => "TB") ⟨true, none, [⟨"a.py", 3⟩, ⟨"b.py", 7⟩]⟩
        (.ofStr "boom") .noneD).file_name = "b.py" ∧
    (mkRAException (fun _ => "TB") ⟨true, none, [⟨"a.py", 3⟩, ⟨"b.py", 7⟩]⟩
        (.ofStr "boom") .noneD).lineno = 7) :=
  init_none_details_deepest_ambient_frame (fun _ => "TB") (.ofStr "boom")
    ⟨true, none, [⟨"a.py", 3⟩, ⟨"b.py", 7⟩]⟩ (by decide)

/-- Claim C2 (code_bug): the caught-exception resolution path is the intent —
over the spec-modelled constructor, a caught error object E as error_details
stores the deepest frame of the own traceback chain of E, and error_message
equals str(E) when E is also the message argument — but that path is exactly
the elif branch orphaned by the interposed string statement: the module
raises SyntaxError at line 30 on import and the branch is never part of a
loadable program. -/
theorem init_caught_exception_details_deepest_frame (fmt : ExcInfo → String)
    (ambient : ExcInfo) (msg : Msg) (E : PyException) (h : E.tb ≠ []) :
    customExceptionModuleImport = .error 30 ∧
    ((mkRAException fmt ambient msg (.excObj E)).file_name
      = (E.tb.getLast h).filename ∧
    (mkRAException fmt ambient msg (.excObj E)).lineno
      = (E.tb.getLast h).lineno ∧
    (mkRAException fmt ambient (.ofExc E) (.excObj E)).error_message = E.str) := by
  have hl := lastTB_some E.tb h
  refine ⟨by decide, ?_, ?_, ?_⟩ <;> simp [mkRAException, resolveExcInfo, normMsg, hl]

/-- Claim C2 witness: a caught two-frame exception passed as both details and
message. -/
theorem init_caught_exception_details_deepest_frame_witness :
    customExceptionModuleImport = .error 30 ∧
    ((mkRAException (fun _ => "T2") ⟨false, none, []⟩ (.ofStr "wrap")
        (.excObj ⟨"division by zero", [⟨"calc.py", 5⟩, ⟨"div.py", 9⟩]⟩)).file_name
      = "div.py" ∧
    (mkRAException (fun _ => "T2") ⟨false, none, []⟩ (.ofStr "wrap")
        (.excObj ⟨"division by zero", [⟨"calc.py", 5⟩, ⟨"div.py", 9⟩]⟩)).lineno = 9 ∧
    (mkRAException (fun _ => "T2") ⟨false, none, []⟩
        (.ofExc ⟨"division by zero", [⟨"calc.py", 5⟩, ⟨"div.py", 9⟩]⟩)
        (.excObj ⟨"division by zero", [⟨"calc.py", 5⟩, ⟨"div.py", 9⟩]⟩)).error_message
      = "division by zero") :=
  init_caught_exception_details_deepest_frame (fun _ => "T2") ⟨false, none, []⟩
    (.ofStr "wrap") ⟨"division by zero", [⟨"calc.py", 5⟩, ⟨"div.py", 9⟩]⟩ (by decide)

/-- Claim C3 (code_bug): the sentinel degradation and rendering are the
intent — over the spec-modelled constructor, a null resolved traceback
handle gives the sentinel file name, lineno -1, the non-empty sentinel
traceback text, and a rendered form that still contains the Traceback
block — but no rendering ever happens: custom_exception.py fails to parse
(SyntaxError at line 30), so the import errors and no instance exists to
render. -/
theorem init_no_traceback_sentinels_and_rendering (fmt : ExcInfo → String)
    (ambient : ExcInfo) (msg : Msg) (ed : ErrorDetails)
    (h : (resolveExcInfo ambient ed).tb = []) :
    customExceptionModuleImport = .error 30 ∧
    (mkRAException fmt ambient msg ed).file_name = "<unknown file>" ∧
    (mkRAException fmt ambient msg ed).lineno = -1 ∧
    (mkRAException fmt ambient msg ed).traceback_str = "<no traceback available>" ∧
    (mkRAException fmt ambient msg ed).traceback_str ≠ "" ∧
    ∃ pre, (mkRAException fmt ambient msg ed).toStr
      = pre ++ "\nTraceback:\n" ++ (mkRAException fmt ambient msg ed).traceback_str := by
  have h3 : (mkRAException fmt ambient msg ed).traceback_str
      = "<no traceback available>" := by
    simp [mkRAException, h]
  refine ⟨by decide, by simp [mkRAException, h, lastTB],
    by simp [mkRAException, h, lastTB], h3, ?_, ?_⟩
  · rw [h3]; decide
  · refine ⟨"Error in [" ++ (mkRAException fmt ambient msg ed).file_name
      ++ "] at line [" ++ toString (mkRAException fmt ambient msg ed).lineno
      ++ "] | Message: " ++ (mkRAException fmt ambient msg ed).error_message, ?_⟩
    rw [RAException.toStr, if_neg (by rw [h3]; decide)]

/-- Claim C3 witness: an exc_info object with a null traceback slot, so
none of the three resolution paths yields a traceback. -/
theorem init_no_traceback_sentinels_and_rendering_witness :
    customExceptionModuleImport = .error 30 ∧
    (mkRAException (fun _ => "T3") ⟨true, none, []⟩ (.ofStr "nothing")
        (.excInfoObj ⟨true, none, []⟩)).file_name = "<unknown file>" ∧
    (mkRAException (fun _ => "T3") ⟨true, none, []⟩ (.ofStr "nothing")
        (.excInfoObj ⟨true, none, []⟩)).lineno = -1 ∧
    (mkRAException (fun _ => "T3") ⟨true, none, []⟩ (.ofStr "nothing")
        (.excInfoObj ⟨true, none, []⟩)).traceback_str = "<no traceback available>" ∧
    (mkRAException (fun _ => "T3") ⟨true, none, []⟩ (.ofStr "nothing")
        (.excInfoObj ⟨true, none, []⟩)).traceback_str ≠ "" ∧
    ∃ pre, (mkRAException (fun _ => "T3") ⟨true, none, []⟩ (.ofStr "nothing")
        (.excInfoObj ⟨true, none, []⟩)).toStr
      = pre ++ "\nTraceback:\n" ++ (mkRAException (fun _ => "T3") ⟨true, none, []⟩
          (.ofStr "nothing") (.excInfoObj ⟨true, none, []⟩)).traceback_str :=
  init_no_traceback_sentinels_and_rendering (fun _ => "T3") ⟨true, none, []⟩
    (.ofStr "nothing") (.excInfoObj ⟨true, none, []⟩) (by decide)

/-- Claim C4 (code_bug): never-throwing construction with sentinel
degradation is the intent — the spec-modelled constructor is a total
function over all four details shapes and every message, degrading to the
sentinel record whenever the resolved traceback is null — but in reality any
use of the class throws before construction starts: the module raises
SyntaxError at line 30 on import. -/
theorem init_total_degrades_to_sentinels (fmt : ExcInfo → String)
    (ambient : ExcInfo) (msg : Msg) (ed : ErrorDetails)
    (h : (resolveExcInfo ambient ed).tb = []) :
    customExceptionModuleImport = .error 30 ∧
    mkRAException fmt ambient msg ed
      = ⟨"<unknown file>", -1, normMsg msg, "<no traceback available>"⟩ :=
  ⟨by decide, by simp [mkRAException, h, lastTB]⟩

/-- Claim C4 witness: an unrecognised details object with no ambient error
being handled. -/
theorem init_total_degrades_to_sentinels_witness :
    customExceptionModuleImport = .error 30 ∧
    mkRAException (fun _ => "T4") ⟨false, none, []⟩ (.ofExc ⟨"oops", []⟩) .otherObj
      = ⟨"<unknown file>", -1, "oops", "<no traceback available>"⟩ :=
  init_total_degrades_to_sentinels (fun _ => "T4") ⟨false, none, []⟩
    (.ofExc ⟨"oops", []⟩) .otherObj (by decide)

/-- Claim C9 (code_bug): the filename versus file_name mismatch is textually
real — over the spec-modelled record, lookup of filename (what the repr
f-string reads first) fails while file_name is the attribute actually
stored, so repr evaluation would raise an attribute-lookup error — but no
instance is ever constructed for repr to fail on: the module raises
SyntaxError at line 30 on import. -/
theorem repr_reads_missing_filename_attribute (fmt : ExcInfo → String)
    (ambient : ExcInfo) (msg : Msg) (ed : ErrorDetails) :
    customExceptionModuleImport = .error 30 ∧
    (mkRAException fmt ambient msg ed).getattr "filename" = none ∧
    (mkRAException fmt ambient msg ed).getattr "file_name"
      = some (.str (mkRAException fmt ambient msg ed).file_name) ∧
    (mkRAException fmt ambient msg ed).reprImpl = .error "filename" :=
  ⟨by decide, rfl, rfl, rfl⟩

/-- Claim C5 (divergence): with a configuration lacking an AZURE block and
LLM_PROVIDER=azure, the try body of load_llm does raise the
ResearchAnalystException with the not-found message containing AZURE, but
that raise happens before model_name is assigned, so the except handler
itself fails on its log f-string and an UnboundLocalError escapes load_llm
instead of the wrapped error. -/
theorem load_llm_provider_not_found_escapes_unbound_local :
    load_llm_try openaiOnlyCfg azureEnv
      = .error (.raExc "LLM provider AZURE not found in configuration", none) ∧
    load_llm openaiOnlyCfg azureEnv = .error (.unboundLocalError "model_name") :=
  ⟨by decide, by decide⟩

/-- Claim C6: for every configuration block whose provider field is some p
with p matching none of openai, google, groq, the try body raises the
distinct unsupported-provider ValueError (model_name being bound by then),
the enclosing handler catches it and re-raises the wrapping
ResearchAnalystException, whose recorded cause is that ValueError,
distinguishable from the provider-not-found error. -/
theorem load_llm_unsupported_provider_rewrapped (emb : Option EmbCfg) (env : Env)
    (block : List (String × LLMEntry)) (e : LLMEntry) (p : String)
    (hfind : dictLookup block (providerKey env) = some e)
    (hp : e.provider = some p)
    (h1 : p ≠ "openai") (h2 : p ≠ "google") (h3 : p ≠ "groq") :
    load_llm_try ⟨emb, some block⟩ env
      = .error (.valueError ("Unsupported LLM provider " ++ p), some e.model_name) ∧
    load_llm ⟨emb, some block⟩ env
      = .error (.wrapped ("Failed to load LLM " ++ pyOptStr e.model_name)
          (.valueError ("Unsupported LLM provider " ++ p))) := by
  have ht : load_llm_try ⟨emb, some block⟩ env
      = .error (.valueError ("Unsupported LLM provider " ++ p), some e.model_name) := by
    simp [load_llm_try, hfind, hp, h1, h2, h3, pyOptStr]
  exact ⟨ht, by simp [load_llm, ht]⟩

/-- Claim C6 witness: the unknown-co scenario of the spec. -/
theorem load_llm_unsupported_provider_rewrapped_witness :
    load_llm_try ⟨none, some [("OPENAI", ⟨some "unknown-co", some "gpt-x", none, none⟩)]⟩
        ⟨none, none, none, none⟩
      = .error (.valueError "Unsupported LLM provider unknown-co", some (some "gpt-x")) ∧
    load_llm ⟨none, some [("OPENAI", ⟨some "unknown-co", some "gpt-x", none, none⟩)]⟩
        ⟨none, none, none, none⟩
      = .error (.wrapped "Failed to load LLM gpt-x"
          (.valueError "Unsupported LLM provider unknown-co")) :=
  load_llm_unsupported_provider_rewrapped none ⟨none, none, none, none⟩
    [("OPENAI", ⟨some "unknown-co", some "gpt-x", none, none⟩)]
    ⟨some "unknown-co", some "gpt-x", none, none⟩ "unknown-co" (by decide) rfl
    (by decide) (by decide) (by decide)

/-- Claim C7 (divergence): with a configuration whose embedding_model block
lacks model_name, the subscript in the try body raises KeyError before
model_name is assigned, so the except handler fails on its log f-string and
an UnboundLocalError escapes load_embeddings instead of the wrapped
ResearchAnalystException. -/
theorem load_embeddings_missing_model_name_escapes_unbound_local :
    load_embeddings_try noEmbNameCfg emptyEnv
      = .error (.keyError "model_name", none) ∧
    load_embeddings noEmbNameCfg emptyEnv
      = .error (.unboundLocalError "model_name") :=
  ⟨by decide, by decide⟩

/-- Claim C8: for every environment with LLM_PROVIDER unset, the provider
key load_llm looks up is OPENAI; and in the spec scenario with the OPENAI
block (openai, gpt-4o-mini, temperature 0.2) and OPENAI_API_KEY sk-test,
load_llm returns the OpenAI chat client with model gpt-4o-mini, temperature
0.2 and api_key sk-test. -/
theorem load_llm_defaults_to_openai_block (env : Env)
    (hp : env.LLM_PROVIDER = none)
    (hk : env.OPENAI_API_KEY = some "sk-test") :
    providerKey env = "OPENAI" ∧
    load_llm openaiOnlyCfg env
      = .ok (.chatOpenAI (some "gpt-4o-mini") 0.2 (some "sk-test")) := by
  have hpk : providerKey env = "OPENAI" := by unfold providerKey; rw [hp]; decide
  have hok : ApiKeyManager.get env "OPENAI_API_KEY" = some "sk-test" := by
    unfold ApiKeyManager.get ApiKeyManager.api_keys
    rw [show pyUpper "OPENAI_API_KEY" = "OPENAI_API_KEY" from rfl]
    simp [dictLookup, hk]
  refine ⟨hpk, ?_⟩
  simp [load_llm, load_llm_try, openaiOnlyCfg, hpk, dictLookup, hok]

/-- Claim C8 witness: the concrete environment of the spec scenario. -/
theorem load_llm_defaults_to_openai_block_witness :
    providerKey ⟨none, some "sk-test", none, none⟩ = "OPENAI" ∧
    load_llm openaiOnlyCfg ⟨none, some "sk-test", none, none⟩
      = .ok (.chatOpenAI (some "gpt-4o-mini") 0.2 (some "sk-test")) :=
  load_llm_defaults_to_openai_block ⟨none, some "sk-test", none, none⟩ rfl rfl

/-- Claim C10: the configured max_tokens (default 1000) is forwarded only in
the google dispatch branch, as max_output_tokens; for the openai and groq
branches the constructed client does not depend on max_tokens at all, so two
configurations differing only in max_tokens give the same result there. -/
theorem load_llm_max_tokens_only_google_branch (env : Env) (k : String)
    (e : LLMEntry) (mt₁ mt₂ : Option Int) (hk : providerKey env = k) :
    ((e.provider = some "openai" ∨ e.provider = some "groq") →
      load_llm ⟨none, some [(k, { e with max_tokens := mt₁ })]⟩ env
        = load_llm ⟨none, some [(k, { e with max_tokens := mt₂ })]⟩ env) ∧
    (e.provider = some "google" →
      load_llm ⟨none, some [(k, { e with max_tokens := mt₁ })]⟩ env
        = .ok (.chatGoogleGenerativeAI e.model_name (e.temperature.getD 0.7)
            (ApiKeyManager.get env "GOOGLE_API_KEY") (mt₁.getD 1000))) := by
  constructor
  · rintro (hp | hp) <;> simp [load_llm, load_llm_try, hk, dictLookup, hp]
  · intro hp
    simp [load_llm, load_llm_try, hk, dictLookup, hp]

/-- Claim C10 witness: a groq block whose max_tokens differs between 5 and
9999 without changing the result, instantiated at the GROQ provider key. -/
theorem load_llm_max_tokens_only_google_branch_witness :
    ((some "groq" = some "openai" ∨ some "groq" = some "groq") →
      load_llm ⟨none, some [("GROQ", ⟨some "groq", some "llama-3", none, some 5⟩)]⟩
          ⟨some "groq", none, none, some "gk"⟩
        = load_llm ⟨none, some [("GROQ", ⟨some "groq", some "llama-3", none, some 9999⟩)]⟩
            ⟨some "groq", none, none, some "gk"⟩) ∧
    ((some "groq" : Option String) = some "google" →
      load_llm ⟨none, some [("GROQ", ⟨some "groq", some "llama-3", none, some 5⟩)]⟩
          ⟨some "groq", none, none, some "gk"⟩
        = .ok (.chatGoogleGenerativeAI (some "llama-3") ((none : Option Rat).getD 0.7)
            (ApiKeyManager.get ⟨some "groq", none, none, some "gk"⟩ "GOOGLE_API_KEY")
            ((some (5 : Int)).getD 1000))) :=
  load_llm_max_tokens_only_google_branch ⟨some "groq", none, none, some "gk"⟩ "GROQ"
    ⟨some "groq", some "llama-3", none, none⟩ (some 5) (some 9999) (by decide)

end ResearchAnalyst
